import Mathlib

/-!
# Verification of the CoastalGuard weather dashboard (`app.py`)

A shallow embedding of the numeric and control-flow core of the Flask
application: the weather-record builder `fetch_weather_data`, the mock
generator `get_mock_weather_data`, the classifier `calculate_threat_level`,
the derived estimations, the `/api/city/<name>` route, and the Gemini
response parser.  Python floats are modelled as rationals (`ℚ`), Python
ints as `ℤ`; `random.*` calls are driven by an explicit stream of raw
draws `g : ℕ → ℕ`; wall-clock time and `strftime` formatting enter through
an explicit `Clock`; the outcome of the upstream HTTP call is an explicit
`ApiOutcome`.
-/

/-- Python built-in `round` on a rational: round half to even
as CPython does for `round(x)` on a float. -/
def pyRound (q : ℚ) : ℤ :=
  if q - ⌊q⌋ < 1/2 then ⌊q⌋
  else if 1/2 < q - ⌊q⌋ then ⌊q⌋ + 1
  else if ⌊q⌋ % 2 = 0 then ⌊q⌋ else ⌊q⌋ + 1

/-- Python `round(x, 1)`: round to one decimal digit. -/
def pyRound1 (q : ℚ) : ℚ := (pyRound (q * 10) : ℚ) / 10

/-- Python `random.randint(lo, hi)` (both endpoints inclusive), driven by a
raw draw `r`. -/
def randint (lo hi : ℤ) (r : ℕ) : ℤ := lo + ((r % (hi - lo + 1).toNat : ℕ) : ℤ)

/-- Python `random.uniform(a, b)`, driven by a raw draw `r`: a value
`a + (b - a) * u` with `u ∈ [0, 1)`. -/
def uniform (a b : ℚ) (r : ℕ) : ℚ :=
  a + (b - a) * ((r % 1000000 : ℕ) : ℚ) / 1000000

/-- Python `random.choice(xs)`, driven by a raw draw `r`. -/
def choice (xs : List String) (r : ℕ) : String := xs.getD (r % xs.length) ""

/-- Python `str.title()`: uppercase every letter that follows a non-letter,
lowercase every letter that follows a letter. -/
def pyTitle (s : String) : String :=
  String.mk (((s.data.foldl (fun (acc : List Char × Bool) c =>
    ((if acc.2 then c.toLower else c.toUpper) :: acc.1, c.isAlpha))
    ([], false)).1).reverse)

/-- The external clock: `datetime.fromtimestamp(ts).strftime("%H:%M")`
(field `fmtHM`) and `datetime.now().strftime("%H:%M")` (field `nowHM`). -/
structure Clock where
  fmtHM : ℤ → String
  nowHM : String

/-- Static coordinates and map icon of one Gujarat city
(an entry of `GUJARAT_CITIES`). -/
structure CityInfo where
  lat : ℚ
  lon : ℚ
  icon : String
deriving DecidableEq

/-- The hardcoded `GUJARAT_CITIES` mapping of `app.py` (lines 65-76). -/
def GUJARAT_CITIES : List (String × CityInfo) :=
  [("Ahmedabad", ⟨23.0225, 72.5714, "fa-anchor"⟩),
   ("Surat", ⟨21.1702, 72.8311, "fa-ship"⟩),
   ("Vadodara", ⟨22.3072, 73.1812, "fa-industry"⟩),
   ("Rajkot", ⟨22.3039, 70.8022, "fa-cog"⟩),
   ("Bhavnagar", ⟨21.7645, 72.1519, "fa-anchor"⟩),
   ("Jamnagar", ⟨22.4707, 70.0577, "fa-oil-well"⟩),
   ("Porbandar", ⟨21.6417, 69.6293, "fa-ship"⟩),
   ("Dwarka", ⟨22.2394, 68.9678, "fa-mosque"⟩),
   ("Veraval", ⟨20.9077, 70.3665, "fa-fish"⟩),
   ("Okha", ⟨22.4672, 69.0717, "fa-lighthouse"⟩)]

/-- A well-formed OpenWeatherMap response, restricted to the fields
`app.py` reads.  Optional JSON fields (`main.sea_level`, `wind.deg`,
`wind.gust`, `visibility`, `timezone`) are `Option`s; a response missing a
*required* field raises `KeyError` in the code and is modelled by the
`ApiOutcome.keyError` branch instead. -/
structure ApiResponse where
  main_temp : ℚ
  main_feels_like : ℚ
  main_temp_min : ℚ
  main_temp_max : ℚ
  main_humidity : ℚ
  main_pressure : ℚ
  main_sea_level : Option ℚ
  wind_speed : ℚ
  wind_deg : Option ℚ
  wind_gust : Option ℚ
  weather_main : String
  weather_description : String
  weather_icon : String
  visibility : Option ℚ
  clouds_all : ℚ
  sys_sunrise : ℤ
  sys_sunset : ℤ
  sys_country : String
  timezone : Option ℤ
deriving DecidableEq

/-- The 16-point compass rose of `get_wind_direction`. -/
def directions : List String :=
  ["N", "NNE", "NE", "ENE", "E", "ESE", "SE", "SSE",
   "S", "SSW", "SW", "WSW", "W", "WNW", "NW", "NNW"]

/-- `get_wind_direction(degrees)` (app.py lines 78-83):
`directions[round(degrees / 22.5) % 16]`.  The list indexing is kept as the
option-valued operation `·[·]?` so that totality is a theorem, not an assumption. -/
def get_wind_direction (degrees : ℚ) : Option String :=
  directions[((pyRound (degrees / 22.5)) % 16).toNat]?

/-- `calculate_uv_index(weather_data)` (app.py lines 85-94), driven by one
raw draw `r` for its single `random.randint` call. -/
def calculate_uv_index (weather_data : ApiResponse) (r : ℕ) : ℤ :=
  if weather_data.clouds_all > 80 then randint 1 3 r
  else if weather_data.clouds_all > 50 then randint 3 6 r
  else randint 6 9 r

/-- The `air_quality` sub-record. -/
structure AirQuality where
  level : String
  aqi : ℤ
  color : String
deriving DecidableEq

/-- `get_air_quality_estimation(weather_data)` (app.py lines 96-106),
driven by one raw draw `r`. -/
def get_air_quality_estimation (weather_data : ApiResponse) (r : ℕ) : AirQuality :=
  if weather_data.main_pressure > 1020 ∧ weather_data.main_humidity < 60 then
    ⟨"Good", randint 1 50 r, "green"⟩
  else if weather_data.main_pressure > 1010 ∧ weather_data.main_humidity < 70 then
    ⟨"Moderate", randint 51 100 r, "yellow"⟩
  else
    ⟨"Unhealthy", randint 101 150 r, "orange"⟩

/-- The `sea_conditions` sub-record. -/
structure SeaConditions where
  condition : String
  wave_height : String
  safety : String
deriving DecidableEq

/-- `estimate_sea_conditions(weather_data)` (app.py lines 108-118). -/
def estimate_sea_conditions (weather_data : ApiResponse) : SeaConditions :=
  if weather_data.wind_speed * 3.6 < 20 ∧ weather_data.main_pressure > 1015 then
    ⟨"Calm", "0.5-1m", "Safe"⟩
  else if weather_data.wind_speed * 3.6 < 35 ∧ weather_data.main_pressure > 1005 then
    ⟨"Moderate", "1-2m", "Caution"⟩
  else
    ⟨"Rough", "2-4m", "Warning"⟩

/-- The threshold logic of `calculate_threat_level` (app.py lines 258-264)
on the three extracted scalars: temperature in °C, wind speed already
converted to km/h, pressure in hPa. -/
def threat_of (temp wind_speed pressure : ℚ) : String :=
  if temp > 40 ∨ wind_speed > 50 ∨ pressure < 990 then "red"
  else if temp > 35 ∨ wind_speed > 30 ∨ pressure < 1000 then "yellow"
  else "green"

/-- `calculate_threat_level(weather_data)` (app.py lines 252-264): extracts
`main.temp`, `wind.speed * 3.6` and `main.pressure` and applies the
thresholds. -/
def calculate_threat_level (weather_data : ApiResponse) : String :=
  threat_of weather_data.main_temp (weather_data.wind_speed * 3.6)
    weather_data.main_pressure

/-- The flat per-city weather record produced by `fetch_weather_data` /
`get_mock_weather_data`.  `icon_class` is absent (`none`) until the
`/api/city/<name>` route attaches it. -/
structure WeatherRecord where
  city : String
  temperature : ℤ
  feels_like : ℤ
  temp_min : ℤ
  temp_max : ℤ
  humidity : ℚ
  pressure : ℚ
  sea_level_pressure : ℚ
  wind_speed : ℤ
  wind_direction : ℚ
  wind_direction_text : Option String
  wind_gust : ℤ
  description : String
  main_weather : String
  icon : String
  visibility : ℚ
  clouds : ℚ
  sunrise : String
  sunset : String
  country : String
  timezone : ℤ
  last_updated : String
  threat_level : String
  uv_index : ℤ
  air_quality : AirQuality
  sea_conditions : SeaConditions
  coordinates : ℚ × ℚ
  icon_class : Option String
deriving DecidableEq

/-- The record literal returned on the success path of `fetch_weather_data`
(app.py lines 172-206).  `g 0` drives the `random.randint` inside
`calculate_uv_index`, `g 1` the one inside `get_air_quality_estimation`. -/
def build_weather_record (city_name : String) (lat lon : ℚ) (data : ApiResponse)
    (g : ℕ → ℕ) (clock : Clock) : WeatherRecord :=
  { city := city_name
    temperature := pyRound data.main_temp
    feels_like := pyRound data.main_feels_like
    temp_min := pyRound data.main_temp_min
    temp_max := pyRound data.main_temp_max
    humidity := data.main_humidity
    pressure := data.main_pressure
    sea_level_pressure := data.main_sea_level.getD data.main_pressure
    wind_speed := pyRound (data.wind_speed * 3.6)
    wind_direction := data.wind_deg.getD 0
    wind_direction_text := get_wind_direction (data.wind_deg.getD 0)
    wind_gust := match data.wind_gust with
      | some gq => if gq = 0 then 0 else pyRound (gq * 3.6)
      | none => 0
    description := pyTitle data.weather_description
    main_weather := data.weather_main
    icon := data.weather_icon
    visibility := (data.visibility.getD 10000) / 1000
    clouds := data.clouds_all
    sunrise := clock.fmtHM data.sys_sunrise
    sunset := clock.fmtHM data.sys_sunset
    country := data.sys_country
    timezone := data.timezone.getD 0
    last_updated := clock.nowHM
    threat_level := calculate_threat_level data
    uv_index := calculate_uv_index data (g 0)
    air_quality := get_air_quality_estimation data (g 1)
    sea_conditions := estimate_sea_conditions data
    coordinates := (lat, lon)
    icon_class := none }

/-- `get_mock_weather_data(city_name)` (app.py lines 218-250), with the
successive `random.*` calls driven by `g 0`, `g 1`, …, `g 16` in source
order. -/
def get_mock_weather_data (city_name : String) (g : ℕ → ℕ) (clock : Clock) :
    WeatherRecord :=
  let temp := randint 25 35 (g 0)
  { city := city_name
    temperature := temp
    feels_like := temp + randint (-2) 4 (g 1)
    temp_min := temp - randint 2 5 (g 2)
    temp_max := temp + randint 2 5 (g 3)
    humidity := (randint 60 85 (g 4) : ℤ)
    pressure := (randint 1010 1020 (g 5) : ℤ)
    sea_level_pressure := (randint 1012 1022 (g 6) : ℤ)
    wind_speed := randint 10 25 (g 7)
    wind_direction := (randint 0 360 (g 8) : ℤ)
    wind_direction_text := get_wind_direction ((randint 0 360 (g 9) : ℤ) : ℚ)
    wind_gust := randint 15 35 (g 10)
    description := choice ["Clear Sky", "Few Clouds", "Partly Cloudy", "Light Breeze"] (g 11)
    main_weather := choice ["Clear", "Clouds", "Mist"] (g 12)
    icon := "01d"
    visibility := pyRound1 (uniform 8 15 (g 13))
    clouds := (randint 10 40 (g 14) : ℤ)
    sunrise := "06:30"
    sunset := "18:45"
    country := "IN"
    timezone := 19800
    last_updated := clock.nowHM
    threat_level := "green"
    uv_index := randint 3 8 (g 15)
    air_quality := ⟨"Good", randint 20 80 (g 16), "green"⟩
    sea_conditions := ⟨"Calm", "0.5-1m", "Safe"⟩
    coordinates := (22, 71)
    icon_class := none }

/-- The guard of app.py line 149:
`not api_key or api_key.strip() == "" or api_key == "your-openweathermap-api-key"`
(a `None` key and the empty string are both falsy in Python). -/
def api_key_invalid : Option String → Bool
  | none => true
  | some s => s = "" ∨ s.trim = "" ∨ s = "your-openweathermap-api-key"

/-- Outcome of the upstream HTTP call inside `fetch_weather_data`:
a well-formed JSON body, or one of the three exception classes the code
catches (`requests.exceptions.RequestException`, `KeyError`, anything
else). -/
inductive ApiOutcome where
  | success (data : ApiResponse)
  | requestError
  | keyError
  | otherError

/-- `fetch_weather_data(city_name, lat, lon)` (app.py lines 120-216):
with a missing/blank/placeholder API key, or on any caught exception,
return `get_mock_weather_data(city_name)`; otherwise build the record from
the response. -/
def fetch_weather_data (api_key : Option String) (outcome : ApiOutcome)
    (g : ℕ → ℕ) (clock : Clock) (city_name : String) (lat lon : ℚ) :
    WeatherRecord :=
  if api_key_invalid api_key then get_mock_weather_data city_name g clock
  else
    match outcome with
    | .success data => build_weather_record city_name lat lon data g clock
    | .requestError => get_mock_weather_data city_name g clock
    | .keyError => get_mock_weather_data city_name g clock
    | .otherError => get_mock_weather_data city_name g clock

/-- Response of the `/api/city/<city_name>` route: either an error status
with an error-JSON message, or a weather record serialised as JSON. -/
inductive CityResponse where
  | failure (status : ℕ) (message : String)
  | ok (body : WeatherRecord)
deriving DecidableEq

/-- `get_city_weather(city_name)` (app.py lines 809-819): 404 for unknown
cities, otherwise the fetched record with the `icon_class` of the city
attached. -/
def get_city_weather (api_key : Option String) (outcome : ApiOutcome)
    (g : ℕ → ℕ) (clock : Clock) (city_name : String) : CityResponse :=
  match GUJARAT_CITIES.lookup city_name with
  | none => .failure 404 "City not found"
  | some coords =>
    .ok { fetch_weather_data api_key outcome g clock city_name coords.lat coords.lon
            with icon_class := some coords.icon }

/-- A JSON value, for the dictionaries handled around the Gemini call. -/
inductive JVal where
  | str (s : String)
  | num (q : ℚ)
  | bool (b : Bool)
  | null
  | arr (elems : List JVal)
  | obj (fields : List (String × JVal))

/-- `get_fallback_analysis()` (app.py lines 471-493), as a JSON
dictionary; `now` is `datetime.now().strftime("%Y-%m-%d %H:%M:%S")`. -/
def get_fallback_analysis (now : String) : List (String × JVal) :=
  [("alert_level", .str "green"),
   ("overall_threat_score", .num 3),
   ("primary_concerns", .arr [.str "Normal coastal conditions"]),
   ("reason", .str "Current weather conditions are within normal parameters for Gujarat coastal regions. Wind speeds and sea conditions are manageable for routine coastal activities."),
   ("recommended_action", .str "Continue normal coastal operations with standard safety precautions. Monitor weather updates regularly."),
   ("affected_areas", .arr [.str "Gujarat Coast"]),
   ("risk_factors", .obj [("wind_risk", .str "low"), ("wave_risk", .str "low"),
      ("visibility_risk", .str "low"), ("temperature_risk", .str "low")]),
   ("forecast_trend", .str "stable"),
   ("emergency_contacts", .str "Contact local authorities if conditions change"),
   ("last_updated", .str now),
   ("data_source", .str "Fallback analysis - AI unavailable")]

/-- The markdown-fence stripping of `parse_gemini_response`
(app.py lines 444-450), applied to the already-stripped text. -/
def strip_code_fences (t : String) : String :=
  let t1 := if t.startsWith "```json" then t.drop 7 else t
  let t2 := if t1.startsWith "```" then t1.drop 3 else t1
  if t2.endsWith "```" then t2.dropRight 3 else t2

/-- The required-field list of `parse_gemini_response` (app.py line 456). -/
def required_fields : List String := ["alert_level", "reason", "recommended_action"]

/-- The membership test `analysis["alert_level"] in ["green", "yellow", "red"]`:
true exactly for those three JSON strings (any non-string value fails it). -/
def valid_alert : JVal → Bool
  | .str s => s ∈ ["green", "yellow", "red"]
  | _ => false

/-- `analysis["alert_level"] = "green"`: replace the value bound to key `k`
in a JSON dictionary. -/
def set_field (fields : List (String × JVal)) (k : String) (v : JVal) :
    List (String × JVal) :=
  fields.map (fun p => if p.1 = k then (k, v) else p)

/-- `parse_gemini_response(response_text)` (app.py lines 436-469).
`loads` stands for `json.loads` (an external library routine): `some` a JSON
value on success, `none` when it raises.  A non-dictionary value, a parse
failure, or a missing required field all land in the `except` clause and
yield `get_fallback_analysis()`. -/
def parse_gemini_response (loads : String → Option JVal) (now : String)
    (response_text : String) : List (String × JVal) :=
  match loads (strip_code_fences response_text.trim).trim with
  | some (.obj fields) =>
    if required_fields.all (fun f => (fields.lookup f).isSome) then
      if valid_alert ((fields.lookup "alert_level").getD .null) then fields
      else set_field fields "alert_level" (.str "green")
    else get_fallback_analysis now
  | _ => get_fallback_analysis now

/-- A concrete clock for witnesses: constant formatted times. -/
def demoClock : Clock := ⟨fun _ => "06:30", "12:00"⟩

/-- A concrete raw-draw stream for witnesses. -/
def gZero : ℕ → ℕ := fun _ => 0

/-- A concrete well-formed API response (wind speed 1 m/s) for witnesses
and counterexamples. -/
def demoApiData : ApiResponse :=
  { main_temp := 30
    main_feels_like := 32
    main_temp_min := 28
    main_temp_max := 33
    main_humidity := 70
    main_pressure := 1011
    main_sea_level := some 1013
    wind_speed := 1
    wind_deg := some 90
    wind_gust := none
    weather_main := "Clear"
    weather_description := "clear sky"
    weather_icon := "01d"
    visibility := some 8000
    clouds_all := 20
    sys_sunrise := 1700000000
    sys_sunset := 1700040000
    sys_country := "IN"
    timezone := some 19800 }

/-- `demoApiData` with a different humidity, cloud cover and description:
agrees with `demoApiData` on temperature, wind speed and pressure only. -/
def demoApiData2 : ApiResponse :=
  { demoApiData with
    main_humidity := 95
    clouds_all := 90
    weather_description := "overcast clouds"
    visibility := some 2000 }

/-! ## Helper lemmas -/

theorem randint_bounds (lo hi : ℤ) (r : ℕ) (h : lo ≤ hi) :
    lo ≤ randint lo hi r ∧ randint lo hi r ≤ hi := by
  unfold randint
  have hm : 0 < (hi - lo + 1).toNat := by omega
  have h2 : r % (hi - lo + 1).toNat < (hi - lo + 1).toNat := Nat.mod_lt r hm
  omega

theorem pyRound_abs_sub (q : ℚ) : |((pyRound q : ℤ) : ℚ) - q| ≤ 1/2 := by
  have h0 : ((⌊q⌋ : ℤ) : ℚ) ≤ q := Int.floor_le q
  have h1 : q < ⌊q⌋ + 1 := Int.lt_floor_add_one q
  unfold pyRound
  split_ifs with hf hg hp <;> rw [abs_le] <;> constructor <;> push_cast <;> linarith

theorem threat_of_mem (t w p : ℚ) :
    threat_of t w p ∈ (["green", "yellow", "red"] : List String) := by
  unfold threat_of
  split_ifs <;> simp

/-- Claim C1: `calculate_threat_level` returns `red` iff temperature > 40 °C
or wind speed × 3.6 > 50 km/h or pressure < 990 hPa; otherwise `yellow` iff
temperature > 35 or converted wind speed > 30 or pressure < 1000; otherwise
`green`. -/
theorem calculate_threat_level_thresholds (w : ApiResponse) :
    (calculate_threat_level w = "red" ↔
      (w.main_temp > 40 ∨ w.wind_speed * 3.6 > 50 ∨ w.main_pressure < 990)) ∧
    (calculate_threat_level w = "yellow" ↔
      (¬(w.main_temp > 40 ∨ w.wind_speed * 3.6 > 50 ∨ w.main_pressure < 990) ∧
       (w.main_temp > 35 ∨ w.wind_speed * 3.6 > 30 ∨ w.main_pressure < 1000))) ∧
    (calculate_threat_level w = "green" ↔
      (¬(w.main_temp > 40 ∨ w.wind_speed * 3.6 > 50 ∨ w.main_pressure < 990) ∧
       ¬(w.main_temp > 35 ∨ w.wind_speed * 3.6 > 30 ∨ w.main_pressure < 1000))) := by
  unfold calculate_threat_level threat_of
  split_ifs with h1 h2 <;> refine ⟨?_, ?_, ?_⟩ <;> simp_all

/-- Claim C2: the threat level is a pure function of exactly `main.temp`,
`wind.speed` and `main.pressure`: two responses agreeing on those three
fields get the same classification, whatever their other fields. -/
theorem calculate_threat_level_pure (w1 w2 : ApiResponse)
    (ht : w1.main_temp = w2.main_temp) (hw : w1.wind_speed = w2.wind_speed)
    (hp : w1.main_pressure = w2.main_pressure) :
    calculate_threat_level w1 = calculate_threat_level w2 := by
  unfold calculate_threat_level
  rw [ht, hw, hp]

/-- Witness for C2: `demoApiData` and `demoApiData2` differ (humidity,
clouds, description, visibility) yet agree on the three classified fields,
and get the same threat level. -/
theorem calculate_threat_level_pure_witness :
    demoApiData.main_temp = demoApiData2.main_temp ∧
    demoApiData.wind_speed = demoApiData2.wind_speed ∧
    demoApiData.main_pressure = demoApiData2.main_pressure ∧
    demoApiData ≠ demoApiData2 ∧
    calculate_threat_level demoApiData = calculate_threat_level demoApiData2 :=
  ⟨rfl, rfl, rfl, by decide, calculate_threat_level_pure _ _ rfl rfl rfl⟩

/-- Claim C8: for every degree value, including negative ones,
`round(degrees / 22.5) % 16` lies in `[0, 15]`, so `get_wind_direction`
always returns one of the 16 compass-point strings. -/
theorem get_wind_direction_total (degrees : ℚ) :
    0 ≤ pyRound (degrees / 22.5) % 16 ∧ pyRound (degrees / 22.5) % 16 < 16 ∧
    ∃ s, get_wind_direction degrees = some s ∧ s ∈ directions := by
  have h0 : 0 ≤ pyRound (degrees / 22.5) % 16 :=
    Int.emod_nonneg _ (by norm_num)
  have h1 : pyRound (degrees / 22.5) % 16 < 16 :=
    Int.emod_lt_of_pos _ (by norm_num)
  refine ⟨h0, h1, ?_⟩
  have h2 : (pyRound (degrees / 22.5) % 16).toNat < directions.length := by
    simp only [directions, List.length]
    omega
  exact ⟨directions[(pyRound (degrees / 22.5) % 16).toNat],
    by unfold get_wind_direction; exact List.getElem?_eq_getElem h2,
    List.getElem_mem h2⟩

/-- A concrete record built from `demoApiData`, whose raw wind speed is
1 m/s: the reported `wind_speed` is `round(3.6) = 4`, not the exact
conversion `3.6`.  This refutes the claim that the *reported* wind speed
equals the m/s value multiplied by 3.6. -/
theorem wind_speed_conversion_not_exact :
    ((build_weather_record "Surat" 21.1702 72.8311 demoApiData gZero demoClock).wind_speed : ℚ)
      ≠ demoApiData.wind_speed * 3.6 ∧
    (build_weather_record "Surat" 21.1702 72.8311 demoApiData gZero demoClock).wind_speed = 4 ∧
    demoApiData.wind_speed * 3.6 = (18 : ℚ) / 5 := by
  have hw : (build_weather_record "Surat" 21.1702 72.8311 demoApiData gZero demoClock).wind_speed = 4 := by
    show pyRound (demoApiData.wind_speed * 3.6) = 4
    have h : demoApiData.wind_speed * (3.6 : ℚ) = 18/5 := by norm_num [demoApiData]
    rw [pyRound, h]
    norm_num
  refine ⟨?_, hw, by norm_num [demoApiData]⟩
  rw [hw]
  norm_num [demoApiData]

/-- Claim C4 (amended): the reported `wind_speed` is the exact conversion
`wind.speed × 3.6` rounded to the nearest integer (so it differs from the
exact km/h value by at most 1/2), and the reported `visibility` is exactly
the raw visibility in metres (default 10000) divided by 1000. -/
theorem unit_conversions (city : String) (lat lon : ℚ) (data : ApiResponse)
    (g : ℕ → ℕ) (clock : Clock) :
    (build_weather_record city lat lon data g clock).wind_speed =
      pyRound (data.wind_speed * 3.6) ∧
    |((build_weather_record city lat lon data g clock).wind_speed : ℚ) -
      data.wind_speed * 3.6| ≤ 1/2 ∧
    (build_weather_record city lat lon data g clock).visibility * 1000 =
      data.visibility.getD 10000 := by
  refine ⟨rfl, pyRound_abs_sub _, ?_⟩
  show (data.visibility.getD 10000) / 1000 * 1000 = data.visibility.getD 10000
  exact div_mul_cancel₀ _ (by norm_num)

/-- Claim C5: a missing/blank/placeholder API key, and every caught
exception class (request error, missing response field, anything else),
all make `fetch_weather_data` return `get_mock_weather_data(city_name)`
instead of propagating an error. -/
theorem fetch_weather_data_fallback (api_key : Option String) (outcome : ApiOutcome)
    (g : ℕ → ℕ) (clock : Clock) (city_name : String) (lat lon : ℚ)
    (h : api_key_invalid api_key = true ∨ ∀ d, outcome ≠ ApiOutcome.success d) :
    fetch_weather_data api_key outcome g clock city_name lat lon =
      get_mock_weather_data city_name g clock := by
  unfold fetch_weather_data
  rcases h with h | h
  · simp [h]
  · by_cases hk : api_key_invalid api_key = true
    · simp [hk]
    · simp only [hk, if_false, Bool.false_eq_true, if_neg, not_false_iff]
      cases outcome with
      | success d => exact absurd rfl (h d)
      | requestError => rfl
      | keyError => rfl
      | otherError => rfl

/-- Witness for C5: with no API key at all and a failing request, the Surat
fetch is exactly the mock record. -/
theorem fetch_weather_data_fallback_witness :
    fetch_weather_data none ApiOutcome.requestError gZero demoClock "Surat" 21.1702 72.8311 =
      get_mock_weather_data "Surat" gZero demoClock :=
  fetch_weather_data_fallback none ApiOutcome.requestError gZero demoClock
    "Surat" 21.1702 72.8311 (Or.inl rfl)

/-- Claim C6: every weather record the program produces — built from a real
API response, generated by the mock generator, or returned by
`fetch_weather_data` on any path — carries a `threat_level` in
`{green, yellow, red}`. -/
theorem threat_level_enum (api_key : Option String) (outcome : ApiOutcome)
    (g : ℕ → ℕ) (clock : Clock) (city : String) (lat lon : ℚ) (data : ApiResponse) :
    (build_weather_record city lat lon data g clock).threat_level ∈
      (["green", "yellow", "red"] : List String) ∧
    (get_mock_weather_data city g clock).threat_level ∈
      (["green", "yellow", "red"] : List String) ∧
    (fetch_weather_data api_key outcome g clock city lat lon).threat_level ∈
      (["green", "yellow", "red"] : List String) := by
  have hb : (build_weather_record city lat lon data g clock).threat_level ∈
      (["green", "yellow", "red"] : List String) := threat_of_mem _ _ _
  have hm : (get_mock_weather_data city g clock).threat_level ∈
      (["green", "yellow", "red"] : List String) := by
    simp [get_mock_weather_data]
  refine ⟨hb, hm, ?_⟩
  unfold fetch_weather_data
  split
  · exact hm
  · cases outcome with
    | success d => exact threat_of_mem _ _ _
    | requestError => exact hm
    | keyError => exact hm
    | otherError => exact hm

/-- Claim C3: every record `get_mock_weather_data` can produce stays inside
its fixed ranges — temperature in [25,35], feels_like in
[temperature−2, temperature+4], humidity in [60,85], pressure in
[1010,1020], sea-level pressure in [1012,1022], wind speed in [10,25],
wind direction in [0,360], clouds in [10,40], uv_index in [3,8], air-quality
aqi in [20,80], threat_level "green" — and `calculate_uv_index` always
returns an integer in [1,9]. -/
theorem mock_data_ranges (city : String) (g : ℕ → ℕ) (clock : Clock)
    (data : ApiResponse) (r : ℕ) :
    25 ≤ (get_mock_weather_data city g clock).temperature ∧
    (get_mock_weather_data city g clock).temperature ≤ 35 ∧
    (get_mock_weather_data city g clock).temperature - 2 ≤
      (get_mock_weather_data city g clock).feels_like ∧
    (get_mock_weather_data city g clock).feels_like ≤
      (get_mock_weather_data city g clock).temperature + 4 ∧
    60 ≤ (get_mock_weather_data city g clock).humidity ∧
    (get_mock_weather_data city g clock).humidity ≤ 85 ∧
    1010 ≤ (get_mock_weather_data city g clock).pressure ∧
    (get_mock_weather_data city g clock).pressure ≤ 1020 ∧
    1012 ≤ (get_mock_weather_data city g clock).sea_level_pressure ∧
    (get_mock_weather_data city g clock).sea_level_pressure ≤ 1022 ∧
    10 ≤ (get_mock_weather_data city g clock).wind_speed ∧
    (get_mock_weather_data city g clock).wind_speed ≤ 25 ∧
    0 ≤ (get_mock_weather_data city g clock).wind_direction ∧
    (get_mock_weather_data city g clock).wind_direction ≤ 360 ∧
    10 ≤ (get_mock_weather_data city g clock).clouds ∧
    (get_mock_weather_data city g clock).clouds ≤ 40 ∧
    3 ≤ (get_mock_weather_data city g clock).uv_index ∧
    (get_mock_weather_data city g clock).uv_index ≤ 8 ∧
    20 ≤ (get_mock_weather_data city g clock).air_quality.aqi ∧
    (get_mock_weather_data city g clock).air_quality.aqi ≤ 80 ∧
    (get_mock_weather_data city g clock).threat_level = "green" ∧
    1 ≤ calculate_uv_index data r ∧ calculate_uv_index data r ≤ 9 := by
  have h0 := randint_bounds 25 35 (g 0) (by norm_num)
  have h1 := randint_bounds (-2) 4 (g 1) (by norm_num)
  have h4 := randint_bounds 60 85 (g 4) (by norm_num)
  have h5 := randint_bounds 1010 1020 (g 5) (by norm_num)
  have h6 := randint_bounds 1012 1022 (g 6) (by norm_num)
  have h7 := randint_bounds 10 25 (g 7) (by norm_num)
  have h8 := randint_bounds 0 360 (g 8) (by norm_num)
  have h14 := randint_bounds 10 40 (g 14) (by norm_num)
  have h15 := randint_bounds 3 8 (g 15) (by norm_num)
  have h16 := randint_bounds 20 80 (g 16) (by norm_num)
  have hu1 := randint_bounds 1 3 r (by norm_num)
  have hu2 := randint_bounds 3 6 r (by norm_num)
  have hu3 := randint_bounds 6 9 r (by norm_num)
  unfold get_mock_weather_data calculate_uv_index
  dsimp only
  refine ⟨by omega, by omega, by omega, by omega,
    by exact_mod_cast h4.1, by exact_mod_cast h4.2,
    by exact_mod_cast h5.1, by exact_mod_cast h5.2,
    by exact_mod_cast h6.1, by exact_mod_cast h6.2,
    by omega, by omega,
    by exact_mod_cast h8.1, by exact_mod_cast h8.2,
    by exact_mod_cast h14.1, by exact_mod_cast h14.2,
    by omega, by omega, by omega, by omega, rfl,
    by split_ifs <;> omega, by split_ifs <;> omega⟩

/-- Claim C9: the hardcoded `green` of the mock generator is consistent with the
documented thresholds: a mock record has temperature ≤ 35, wind speed
≤ 25 km/h and pressure ≥ 1010 hPa, so reclassifying it through the
red/yellow threshold logic always yields `green`. -/
theorem mock_threat_consistent (city : String) (g : ℕ → ℕ) (clock : Clock) :
    (get_mock_weather_data city g clock).temperature ≤ 35 ∧
    (get_mock_weather_data city g clock).wind_speed ≤ 25 ∧
    (1010 : ℚ) ≤ (get_mock_weather_data city g clock).pressure ∧
    threat_of ((get_mock_weather_data city g clock).temperature : ℚ)
      ((get_mock_weather_data city g clock).wind_speed : ℚ)
      (get_mock_weather_data city g clock).pressure = "green" := by
  have h0 := randint_bounds 25 35 (g 0) (by norm_num)
  have h7 := randint_bounds 10 25 (g 7) (by norm_num)
  have h5 := randint_bounds 1010 1020 (g 5) (by norm_num)
  unfold get_mock_weather_data
  dsimp only
  have ht : ((randint 25 35 (g 0) : ℤ) : ℚ) ≤ 35 := by exact_mod_cast h0.2
  have hw : ((randint 10 25 (g 7) : ℤ) : ℚ) ≤ 25 := by exact_mod_cast h7.2
  have hp : (1010 : ℚ) ≤ ((randint 1010 1020 (g 5) : ℤ) : ℚ) := by exact_mod_cast h5.1
  refine ⟨by omega, by omega, hp, ?_⟩
  unfold threat_of
  have hA : ¬(((randint 25 35 (g 0) : ℤ) : ℚ) > 40 ∨
      ((randint 10 25 (g 7) : ℤ) : ℚ) > 50 ∨
      ((randint 1010 1020 (g 5) : ℤ) : ℚ) < 990) := by
    push_neg
    exact ⟨by linarith, by linarith, by linarith⟩
  have hB : ¬(((randint 25 35 (g 0) : ℤ) : ℚ) > 35 ∨
      ((randint 10 25 (g 7) : ℤ) : ℚ) > 30 ∨
      ((randint 1010 1020 (g 5) : ℤ) : ℚ) < 1000) := by
    push_neg
    exact ⟨by linarith, by linarith, by linarith⟩
  rw [if_neg hA, if_neg hB]

theorem lookup_eq_none_iff {β : Type} (l : List (String × β)) (k : String) :
    l.lookup k = none ↔ k ∉ l.map Prod.fst := by
  induction l with
  | nil => simp
  | cons p l ih =>
    obtain ⟨a, b⟩ := p
    by_cases h : k = a
    · subst h
      simp [List.lookup]
    · simp [List.lookup, beq_false_of_ne h, h, ih]

theorem lookup_isSome_iff {β : Type} (l : List (String × β)) (k : String) :
    (l.lookup k).isSome = true ↔ k ∈ l.map Prod.fst := by
  rw [Option.isSome_iff_ne_none, ne_eq, lookup_eq_none_iff, not_not]

/-- Claim C7: `/api/city/<name>` answers 404 with an error payload exactly
when `name` is not one of the ten hardcoded cities; for a known city it
returns the fetched weather record of that city with its icon attached. -/
theorem get_city_weather_spec (api_key : Option String) (outcome : ApiOutcome)
    (g : ℕ → ℕ) (clock : Clock) (city_name : String) :
    (get_city_weather api_key outcome g clock city_name =
        CityResponse.failure 404 "City not found" ↔
      city_name ∉ GUJARAT_CITIES.map Prod.fst) ∧
    (∀ c, GUJARAT_CITIES.lookup city_name = some c →
      get_city_weather api_key outcome g clock city_name =
        CityResponse.ok { fetch_weather_data api_key outcome g clock city_name c.lat c.lon
          with icon_class := some c.icon }) := by
  constructor
  · rw [← lookup_eq_none_iff]
    unfold get_city_weather
    cases h : GUJARAT_CITIES.lookup city_name <;> simp
  · intro c hc
    unfold get_city_weather
    rw [hc]

/-- Witness for C7: "Dwarka" is a known city; the route returns its record
with the `fa-mosque` icon attached, and "Kandla" is rejected with 404. -/
theorem get_city_weather_spec_witness :
    get_city_weather none ApiOutcome.keyError gZero demoClock "Dwarka" =
      CityResponse.ok { fetch_weather_data none ApiOutcome.keyError gZero demoClock
        "Dwarka" 22.2394 68.9678 with icon_class := some "fa-mosque" } ∧
    get_city_weather none ApiOutcome.keyError gZero demoClock "Kandla" =
      CityResponse.failure 404 "City not found" :=
  ⟨(get_city_weather_spec none ApiOutcome.keyError gZero demoClock "Dwarka").2
      ⟨22.2394, 68.9678, "fa-mosque"⟩ rfl,
   (get_city_weather_spec none ApiOutcome.keyError gZero demoClock "Kandla").1.mpr
      (by decide)⟩

theorem set_field_keys (fields : List (String × JVal)) (k : String) (v : JVal) :
    (set_field fields k v).map Prod.fst = fields.map Prod.fst := by
  unfold set_field
  rw [List.map_map]
  apply List.map_congr_left
  intro p _
  by_cases h : p.1 = k
  · simp [h]
  · simp [h]

theorem set_field_lookup_self (fields : List (String × JVal)) (k : String) (v : JVal)
    (h : k ∈ fields.map Prod.fst) : (set_field fields k v).lookup k = some v := by
  induction fields with
  | nil => simp at h
  | cons p l ih =>
    obtain ⟨a, b⟩ := p
    have hstep : set_field ((a, b) :: l) k v =
        (if (a, b).1 = k then (k, v) else (a, b)) :: set_field l k v := rfl
    rw [hstep]
    by_cases hp : a = k
    · rw [if_pos hp]
      simp [List.lookup]
    · rw [if_neg hp]
      have hk : (k == a) = false := beq_false_of_ne fun he => hp he.symm
      simp only [List.lookup, hk]
      apply ih
      simp only [List.map_cons] at h
      rcases List.mem_cons.mp h with h' | h'
      · exact absurd h'.symm hp
      · exact h'

theorem valid_alert_spec (v : JVal) (h : valid_alert v = true) :
    ∃ s, v = JVal.str s ∧ s ∈ (["green", "yellow", "red"] : List String) := by
  cases v with
  | str s => exact ⟨s, rfl, by simpa [valid_alert] using h⟩
  | num q => simp [valid_alert] at h
  | bool b => simp [valid_alert] at h
  | null => simp [valid_alert] at h
  | arr xs => simp [valid_alert] at h
  | obj fs => simp [valid_alert] at h

theorem get_fallback_analysis_fields (now : String) :
    (get_fallback_analysis now).lookup "alert_level" = some (JVal.str "green") ∧
    ((get_fallback_analysis now).lookup "reason").isSome = true ∧
    ((get_fallback_analysis now).lookup "recommended_action").isSome = true :=
  ⟨rfl, rfl, rfl⟩

/-- Claim C10: whatever Gemini returns, `parse_gemini_response` yields a
dictionary whose `alert_level` is one of the strings green/yellow/red and
which contains the keys `reason` and `recommended_action`: an invalid
`alert_level` is replaced by `green`, and any parse failure, non-object
value or missing required field yields the fixed fallback analysis. -/
theorem parse_gemini_response_valid (loads : String → Option JVal) (now text : String) :
    (∃ l, (parse_gemini_response loads now text).lookup "alert_level" =
        some (JVal.str l) ∧ l ∈ (["green", "yellow", "red"] : List String)) ∧
    ((parse_gemini_response loads now text).lookup "reason").isSome = true ∧
    ((parse_gemini_response loads now text).lookup "recommended_action").isSome = true := by
  have hfb : ∀ (n : String),
      (∃ l, (get_fallback_analysis n).lookup "alert_level" = some (JVal.str l) ∧
        l ∈ (["green", "yellow", "red"] : List String)) ∧
      ((get_fallback_analysis n).lookup "reason").isSome = true ∧
      ((get_fallback_analysis n).lookup "recommended_action").isSome = true :=
    fun n => ⟨⟨"green", (get_fallback_analysis_fields n).1, by simp⟩,
      (get_fallback_analysis_fields n).2.1, (get_fallback_analysis_fields n).2.2⟩
  unfold parse_gemini_response
  cases hl : loads ((strip_code_fences text.trim).trim) with
  | none => exact hfb now
  | some v =>
    cases v with
    | obj fields =>
      dsimp only
      by_cases hall : required_fields.all (fun f => (fields.lookup f).isSome) = true
      · rw [if_pos hall]
        simp only [required_fields, List.all_cons, List.all_nil, Bool.and_eq_true,
          Bool.and_true, and_true] at hall
        obtain ⟨hal, hre, hra⟩ := hall
        by_cases hv : valid_alert ((fields.lookup "alert_level").getD .null) = true
        · rw [if_pos hv]
          obtain ⟨av, hav⟩ := Option.isSome_iff_exists.mp hal
          rw [hav, Option.getD_some] at hv
          obtain ⟨s, hs, hmem⟩ := valid_alert_spec av hv
          exact ⟨⟨s, by rw [hav, hs], hmem⟩, hre, hra⟩
        · rw [if_neg hv]
          have hkeys : "alert_level" ∈ fields.map Prod.fst :=
            (lookup_isSome_iff fields "alert_level").mp hal
          refine ⟨⟨"green", set_field_lookup_self fields _ _ hkeys, by simp⟩, ?_, ?_⟩
          · rw [lookup_isSome_iff, set_field_keys]
            exact (lookup_isSome_iff fields "reason").mp hre
          · rw [lookup_isSome_iff, set_field_keys]
            exact (lookup_isSome_iff fields "recommended_action").mp hra
      · rw [if_neg hall]
        exact hfb now
    | str s => exact hfb now
    | num q => exact hfb now
    | bool b => exact hfb now
    | null => exact hfb now
    | arr xs => exact hfb now
